import Mathlib

/-!
Verification of the linear-mcp authentication and composite-operation layer.

The definitions below are a shallow embedding of `src/auth.ts` and
`src/graphql/client.ts`.  Class instances become explicit state records,
mutating methods become functions from state to state (paired with an
`Except` describing thrown errors), and the remote HTTP / GraphQL boundary
is represented by explicit outcome / environment parameters.  Timestamps
(`Date.now()`, `expiresAt`) are integers in milliseconds.
-/

namespace LinearMcp

/-- OAuth client configuration (`OAuthConfig` in src/auth.ts). -/
structure OAuthConfig where
  clientId : String
  clientSecret : String
  redirectUri : String
  deriving DecidableEq, Repr

/-- Authentication configuration (`AuthConfig` in src/auth.ts): a tagged union
of an OAuth credential triple and a personal-access-token credential. -/
inductive AuthConfig where
  | oauth (cfg : OAuthConfig)
  | pat (accessToken : String)
  deriving DecidableEq, Repr

/-- Token state (`TokenData` in src/auth.ts). -/
structure TokenData where
  accessToken : String
  refreshToken : String
  expiresAt : Int
  deriving DecidableEq, Repr

/-- JavaScript `Number.MAX_SAFE_INTEGER`, used as the PAT expiry. -/
def maxSafeInteger : Int := 2 ^ 53 - 1

/-- The Linear SDK client, modelled as the api key it is constructed with
(`new LinearClient({ apiKey })`). -/
structure LinearClient where
  apiKey : String
  deriving DecidableEq, Repr

/-- Error codes of the MCP errors thrown by src/auth.ts. -/
inductive ErrorCode where
  | invalidParams
  | invalidRequest
  | internalError
  deriving DecidableEq, Repr

/-- An `McpError` as thrown by src/auth.ts. -/
structure McpError where
  code : ErrorCode
  message : String
  deriving DecidableEq, Repr

/-- State of a `PatLinearAuth` instance (src/auth.ts, lines 74-116). -/
structure PatLinearAuth where
  linearClient : Option LinearClient
  tokenData : Option TokenData
  deriving DecidableEq, Repr

/-- A freshly constructed `PatLinearAuth` (both private fields undefined). -/
def PatLinearAuth.fresh : PatLinearAuth := ⟨none, none⟩

/-- `PatLinearAuth.initialize` (src/auth.ts lines 80-97): rejects non-PAT
configuration, otherwise replaces both the token data (expiry
`Number.MAX_SAFE_INTEGER`, empty refresh token) and the client. -/
def PatLinearAuth.init (_s : PatLinearAuth) (config : AuthConfig) :
    Except McpError PatLinearAuth :=
  match config with
  | .oauth _ =>
      .error ⟨.invalidParams, "PatLinearAuth requires PAT configuration"⟩
  | .pat accessToken =>
      .ok { linearClient := some ⟨accessToken⟩,
            tokenData := some ⟨accessToken, "", maxSafeInteger⟩ }

/-- `PatLinearAuth.getClient` (src/auth.ts lines 99-107). -/
def PatLinearAuth.getClient (s : PatLinearAuth) : Except McpError LinearClient :=
  match s.linearClient with
  | none => .error ⟨.invalidRequest, "Linear client not initialized"⟩
  | some c => .ok c

/-- `PatLinearAuth.isAuthenticated` (src/auth.ts lines 109-111):
`!!this.linearClient && !!this.tokenData`. -/
def PatLinearAuth.isAuthenticated (s : PatLinearAuth) : Bool :=
  s.linearClient.isSome && s.tokenData.isSome

/-- `PatLinearAuth.needsTokenRefresh` (src/auth.ts lines 113-115). -/
def PatLinearAuth.needsTokenRefresh (_s : PatLinearAuth) : Bool :=
  false

/-- State of an `OAuthLinearAuth` instance (src/auth.ts, lines 121-297). -/
structure OAuthLinearAuth where
  config : Option OAuthConfig
  tokenData : Option TokenData
  linearClient : Option LinearClient
  deriving DecidableEq, Repr

/-- A freshly constructed `OAuthLinearAuth` (all private fields undefined). -/
def OAuthLinearAuth.fresh : OAuthLinearAuth := ⟨none, none, none⟩

/-- `OAuthLinearAuth.initialize` (src/auth.ts lines 130-146): rejects non-OAuth
configuration and empty/missing OAuth fields, otherwise stores the config.
Note that it assigns only `this.config`; `this.tokenData` and
`this.linearClient` are left as they were. -/
def OAuthLinearAuth.init (s : OAuthLinearAuth) (config : AuthConfig) :
    Except McpError OAuthLinearAuth :=
  match config with
  | .pat _ =>
      .error ⟨.invalidParams, "OAuthLinearAuth requires OAuth configuration"⟩
  | .oauth cfg =>
      if cfg.clientId = "" || cfg.clientSecret = "" || cfg.redirectUri = "" then
        .error ⟨.invalidParams,
          "Missing required OAuth parameters: clientId, clientSecret, redirectUri"⟩
      else
        .ok { s with config := some cfg }

/-- `OAuthLinearAuth.getClient` (src/auth.ts lines 267-275). -/
def OAuthLinearAuth.getClient (s : OAuthLinearAuth) : Except McpError LinearClient :=
  match s.linearClient with
  | none => .error ⟨.invalidRequest, "Linear client not initialized"⟩
  | some c => .ok c

/-- `OAuthLinearAuth.isAuthenticated` (src/auth.ts lines 277-279):
`!!this.linearClient && !!this.tokenData`. -/
def OAuthLinearAuth.isAuthenticated (s : OAuthLinearAuth) : Bool :=
  s.linearClient.isSome && s.tokenData.isSome

/-- `OAuthLinearAuth.needsTokenRefresh` (src/auth.ts lines 281-284): false with
no token data, otherwise `Date.now() >= expiresAt - 300000`.  `now` is the
current time in milliseconds. -/
def OAuthLinearAuth.needsTokenRefresh (s : OAuthLinearAuth) (now : Int) : Bool :=
  match s.tokenData with
  | none => false
  | some td => decide (td.expiresAt - 300000 ≤ now)

/-- `OAuthLinearAuth.setTokenData` (src/auth.ts lines 287-292). -/
def OAuthLinearAuth.setTokenData (s : OAuthLinearAuth) (td : TokenData) :
    OAuthLinearAuth :=
  { s with tokenData := some td, linearClient := some ⟨td.accessToken⟩ }

/-- Parsed JSON body of a successful token-endpoint response
(`access_token`, `refresh_token`, `expires_in` in seconds). -/
structure TokenResponse where
  accessToken : String
  refreshToken : String
  expiresIn : Int
  deriving DecidableEq, Repr

/-- Outcome of the `fetch` to the token endpoint: a 2xx response with a parsed
body, a non-2xx response (status text and body text), or a transport error. -/
inductive FetchOutcome where
  | success (data : TokenResponse)
  | httpError (statusText : String) (body : String)
  | transportError (message : String)
  deriving DecidableEq, Repr

/-- `OAuthLinearAuth.refreshAccessToken` (src/auth.ts lines 219-265).  The
result pair is (state of the instance when the method returns or throws,
thrown error if any).  Prerequisite failure (`!this.config ||
!this.tokenData?.refreshToken`) throws before any request; a non-2xx
response or transport error is caught and rethrown as an internal error;
only a successful response assigns `this.tokenData` and
`this.linearClient`. -/
def OAuthLinearAuth.refreshAccessToken (s : OAuthLinearAuth) (now : Int)
    (outcome : FetchOutcome) : OAuthLinearAuth × Except McpError Unit :=
  match s.config, s.tokenData with
  | none, _ =>
      (s, .error ⟨.invalidRequest,
        "OAuth not initialized or no refresh token available"⟩)
  | some _, none =>
      (s, .error ⟨.invalidRequest,
        "OAuth not initialized or no refresh token available"⟩)
  | some _, some td =>
      if td.refreshToken = "" then
        (s, .error ⟨.invalidRequest,
          "OAuth not initialized or no refresh token available"⟩)
      else
        match outcome with
        | .success data =>
            ({ s with
                tokenData := some ⟨data.accessToken, data.refreshToken,
                  now + data.expiresIn * 1000⟩,
                linearClient := some ⟨data.accessToken⟩ },
             .ok ())
        | .httpError statusText body =>
            (s, .error ⟨.internalError,
              "Token refresh failed: Token refresh failed: " ++ statusText ++
                ". Response: " ++ body⟩)
        | .transportError msg =>
            (s, .error ⟨.internalError, "Token refresh failed: " ++ msg⟩)

end LinearMcp

namespace LinearMcp

/-! ### Concrete states used by witnesses and counterexamples -/

/-- A well-formed OAuth configuration. -/
def cfgA : OAuthConfig := ⟨"client-id", "client-secret", "http://localhost:3000/cb"⟩

/-- A second, different OAuth configuration. -/
def cfgB : OAuthConfig := ⟨"client-id-2", "client-secret-2", "http://localhost:4000/cb"⟩

/-- A token state with a refresh token, expiring at t = 1000 ms. -/
def tdA : TokenData := ⟨"access-0", "refresh-0", 1000⟩

/-- An authenticated OAuth instance, as produced by `initialize` followed by
`setTokenData tdA`. -/
def oauthA : OAuthLinearAuth :=
  (((OAuthLinearAuth.fresh.init (AuthConfig.oauth cfgA)).toOption.getD
      OAuthLinearAuth.fresh).setTokenData tdA)

/-- An OAuth instance whose token state has an empty refresh token. -/
def oauthNoRefresh : OAuthLinearAuth :=
  (((OAuthLinearAuth.fresh.init (AuthConfig.oauth cfgA)).toOption.getD
      OAuthLinearAuth.fresh).setTokenData ⟨"access-0", "", 1000⟩)

end LinearMcp

namespace LinearMcp

/-- Claim C1: a failed `refreshAccessToken` (non-2xx token-endpoint response or
transport error) throws, and the prior token state is preserved unchanged:
the state is identical, so `getClient` still yields the previously bound
client and `isAuthenticated` is unchanged. -/
theorem refresh_failure_preserves_token_state
    (s : OAuthLinearAuth) (now : Int) (outcome : FetchOutcome)
    (h : (∃ st b, outcome = FetchOutcome.httpError st b) ∨
         (∃ m, outcome = FetchOutcome.transportError m)) :
    (s.refreshAccessToken now outcome).1 = s ∧
    (∃ e, (s.refreshAccessToken now outcome).2 = Except.error e) ∧
    (s.refreshAccessToken now outcome).1.getClient = s.getClient ∧
    (s.refreshAccessToken now outcome).1.isAuthenticated = s.isAuthenticated := by
  have hmain : (s.refreshAccessToken now outcome).1 = s ∧
      ∃ e, (s.refreshAccessToken now outcome).2 = Except.error e := by
    obtain ⟨c, t, lc⟩ := s
    obtain ⟨st, b, rfl⟩ | ⟨m, rfl⟩ := h <;>
      cases c <;> cases t <;>
        simp only [OAuthLinearAuth.refreshAccessToken] <;>
        first
          | exact ⟨trivial, _, rfl⟩
          | exact ⟨rfl, _, rfl⟩
          | (split <;> first
              | exact ⟨trivial, _, rfl⟩
              | exact ⟨rfl, _, rfl⟩)
  exact ⟨hmain.1, hmain.2, by rw [hmain.1], by rw [hmain.1]⟩

/-- Witness for C1: concrete failed refresh on an authenticated instance. -/
theorem refresh_failure_preserves_token_state_witness :
    (oauthA.refreshAccessToken 5000 (FetchOutcome.httpError "400" "invalid_grant")).1
      = oauthA ∧
    (∃ e, (oauthA.refreshAccessToken 5000
        (FetchOutcome.httpError "400" "invalid_grant")).2 = Except.error e) ∧
    (oauthA.refreshAccessToken 5000
        (FetchOutcome.httpError "400" "invalid_grant")).1.getClient = oauthA.getClient ∧
    (oauthA.refreshAccessToken 5000
        (FetchOutcome.httpError "400" "invalid_grant")).1.isAuthenticated
      = oauthA.isAuthenticated :=
  refresh_failure_preserves_token_state oauthA 5000
    (FetchOutcome.httpError "400" "invalid_grant")
    (Or.inl ⟨"400", "invalid_grant", rfl⟩)

/-- Counterexample to claim C2 as stated: with token data whose refresh token
is empty (absent) and whose expiry is in the past, `needsTokenRefresh`
returns true, although the claim requires it to be false when no refresh
token is present. -/
theorem needsTokenRefresh_true_without_refresh_token :
    oauthNoRefresh.tokenData = some ⟨"access-0", "", 1000⟩ ∧
    oauthNoRefresh.needsTokenRefresh 1000000 = true := by
  constructor <;> rfl

/-- Claim C2 (amended): for OAuth, `needsTokenRefresh` is false when no token
state exists, and otherwise is true iff `now >= expiresAt - 300000`,
regardless of whether a refresh token is present; for PAT it is always
false. -/
theorem needsTokenRefresh_spec :
    (∀ (s : OAuthLinearAuth) (now : Int),
        s.needsTokenRefresh now = true ↔
          ∃ td, s.tokenData = some td ∧ td.expiresAt - 300000 ≤ now) ∧
    (∀ s : PatLinearAuth, s.needsTokenRefresh = false) := by
  refine ⟨fun s now => ?_, fun s => rfl⟩
  cases h : s.tokenData with
  | none => simp [OAuthLinearAuth.needsTokenRefresh, h]
  | some td => simp [OAuthLinearAuth.needsTokenRefresh, h]

/-- Counterexample to claim C6 as stated: a PAT strategy initialized with the
empty access token reaches a state where `isAuthenticated` is true although
the held token state's access token is the empty string. -/
theorem isAuthenticated_true_with_empty_access_token :
    PatLinearAuth.fresh.init (AuthConfig.pat "") =
      Except.ok ⟨some ⟨""⟩, some ⟨"", "", maxSafeInteger⟩⟩ ∧
    (PatLinearAuth.mk (some ⟨""⟩) (some ⟨"", "", maxSafeInteger⟩)).isAuthenticated
      = true := by
  constructor <;> rfl

/-- Claim C6 (amended): for both strategies, `isAuthenticated` is true iff a
client and a token state both exist — the access token is not inspected, so
a successful PAT initialization with any token string (even the empty one)
and an OAuth `setTokenData` with any token data yield true. -/
theorem isAuthenticated_spec :
    (∀ (s : PatLinearAuth),
        s.isAuthenticated = (s.linearClient.isSome && s.tokenData.isSome)) ∧
    (∀ (s : OAuthLinearAuth),
        s.isAuthenticated = (s.linearClient.isSome && s.tokenData.isSome)) ∧
    (∀ (s s1 : PatLinearAuth) (t : String),
        s.init (AuthConfig.pat t) = Except.ok s1 → s1.isAuthenticated = true) ∧
    (∀ (s : OAuthLinearAuth) (td : TokenData),
        (s.setTokenData td).isAuthenticated = true) := by
  refine ⟨fun s => rfl, fun s => rfl, fun s s1 t h => ?_, fun s td => rfl⟩
  have : s1 = ⟨some ⟨t⟩, some ⟨t, "", maxSafeInteger⟩⟩ := by
    simpa [PatLinearAuth.init] using h.symm
  rw [this]; rfl

/-- Witness for C6 (amended): the PAT part applied to the empty token. -/
theorem isAuthenticated_spec_witness :
    (PatLinearAuth.mk (some ⟨""⟩) (some ⟨"", "", maxSafeInteger⟩)).isAuthenticated
      = true :=
  isAuthenticated_spec.2.2.1 PatLinearAuth.fresh
    ⟨some ⟨""⟩, some ⟨"", "", maxSafeInteger⟩⟩ "" rfl

/-- Counterexample to claim C7 as stated: re-initializing an OAuth strategy
that holds a token state with a fresh, different, valid configuration keeps
the old token state (and the old client) fully in effect. -/
theorem reinit_keeps_old_token_state :
    oauthA.init (AuthConfig.oauth cfgB) =
      Except.ok ⟨some cfgB, some tdA, some ⟨"access-0"⟩⟩ ∧
    (OAuthLinearAuth.mk (some cfgB) (some tdA)
        (some ⟨"access-0"⟩)).isAuthenticated = true := by
  constructor <;> rfl

/-- Claim C7 (amended): a second `initialize` fully replaces the prior
configuration, but only the PAT strategy also replaces the held token state
(with one derived from the new credential); the OAuth strategy stores the
new config and leaves any held token state and client untouched. -/
theorem reinit_spec :
    (∀ (s : PatLinearAuth) (t : String),
        s.init (AuthConfig.pat t) =
          Except.ok ⟨some ⟨t⟩, some ⟨t, "", maxSafeInteger⟩⟩) ∧
    (∀ (s s1 : OAuthLinearAuth) (cfg : OAuthConfig),
        s.init (AuthConfig.oauth cfg) = Except.ok s1 →
          s1.config = some cfg ∧ s1.tokenData = s.tokenData ∧
            s1.linearClient = s.linearClient) := by
  refine ⟨fun s t => rfl, fun s s1 cfg h => ?_⟩
  rw [OAuthLinearAuth.init] at h
  split at h
  · exact absurd h (by simp)
  · have : s1 = { s with config := some cfg } := by
      simpa using h.symm
    rw [this]
    exact ⟨rfl, rfl, rfl⟩

/-- Witness for C7 (amended): the OAuth part applied to `oauthA` re-initialized
with `cfgB`; the token state and client survive. -/
theorem reinit_spec_witness :
    (OAuthLinearAuth.mk (some cfgB) (some tdA) (some ⟨"access-0"⟩)).config
        = some cfgB ∧
    (OAuthLinearAuth.mk (some cfgB) (some tdA) (some ⟨"access-0"⟩)).tokenData
        = oauthA.tokenData ∧
    (OAuthLinearAuth.mk (some cfgB) (some tdA) (some ⟨"access-0"⟩)).linearClient
        = oauthA.linearClient :=
  reinit_spec.2 oauthA ⟨some cfgB, some tdA, some ⟨"access-0"⟩⟩ cfgB rfl

end LinearMcp

namespace LinearMcp

/-! ### GraphQL client (src/graphql/client.ts)

Each client method performs exactly one `execute` call with a fixed mutation
document and a variables object; a method invocation is embedded as the
`GqlRequest` it sends.  Variables are modelled as JSON-like values. -/

/-- A JSON-like GraphQL variable value. -/
inductive GqlValue where
  | str (s : String)
  | num (n : Int)
  | list (items : List GqlValue)
  | obj (fields : List (String × GqlValue))

/-- The mutation / query documents imported by src/graphql/client.ts. -/
inductive GqlDocument where
  | createIssuesMutation
  | createProjectMutation
  | createBatchIssuesMutation
  | updateIssuesMutation
  | deleteIssuesMutation
  deriving DecidableEq, Repr

/-- One `execute` call: a document plus its variables. -/
structure GqlRequest where
  document : GqlDocument
  vars : GqlValue

/-- An update payload (`UpdateIssueInput`), passed through opaquely by the
client as the `input` variable. -/
structure UpdateIssueInput where
  fields : List (String × GqlValue)

/-- `LinearGraphQLClient.updateIssue` (src/graphql/client.ts lines 109-115):
one execute of the bulk update mutation with `ids: [id]`. -/
def LinearGraphQLClient.updateIssue (id : String) (input : UpdateIssueInput) :
    GqlRequest :=
  ⟨.updateIssuesMutation,
   .obj [("ids", .list [.str id]), ("input", .obj input.fields)]⟩

/-- `LinearGraphQLClient.updateIssues` (src/graphql/client.ts lines 118-121):
one execute of the bulk update mutation with the full id list. -/
def LinearGraphQLClient.updateIssues (ids : List String)
    (input : UpdateIssueInput) : GqlRequest :=
  ⟨.updateIssuesMutation,
   .obj [("ids", .list (ids.map GqlValue.str)), ("input", .obj input.fields)]⟩

/-- `LinearGraphQLClient.deleteIssue` (src/graphql/client.ts lines 170-173). -/
def LinearGraphQLClient.deleteIssue (id : String) : GqlRequest :=
  ⟨.deleteIssuesMutation, .obj [("ids", .list [.str id])]⟩

/-- `LinearGraphQLClient.deleteIssues` (src/graphql/client.ts lines 176-179). -/
def LinearGraphQLClient.deleteIssues (ids : List String) : GqlRequest :=
  ⟨.deleteIssuesMutation, .obj [("ids", .list (ids.map GqlValue.str))]⟩

/-- The remote calls issued by one `updateIssues` invocation: the single
request built above (the method body contains exactly one `execute`). -/
def LinearGraphQLClient.updateIssuesCalls (ids : List String)
    (input : UpdateIssueInput) : List GqlRequest :=
  [LinearGraphQLClient.updateIssues ids input]

/-- The remote calls issued by one `deleteIssues` invocation. -/
def LinearGraphQLClient.deleteIssuesCalls (ids : List String) : List GqlRequest :=
  [LinearGraphQLClient.deleteIssues ids]

/-- Decode a list of string-valued GraphQL values. -/
def decodeStrings : List GqlValue → Option (List String)
  | [] => some []
  | .str s :: rest => (decodeStrings rest).map (fun l => s :: l)
  | _ => none

/-- The id list carried by a request's `ids` variable, if any. -/
def GqlRequest.idsVariable (r : GqlRequest) : Option (List String) :=
  match r.vars with
  | .obj (("ids", .list vs) :: _) => decodeStrings vs
  | _ => none

theorem decodeStrings_map_str (l : List String) :
    decodeStrings (l.map GqlValue.str) = some l := by
  induction l with
  | nil => rfl
  | cons s rest ih => simp [decodeStrings, ih]

end LinearMcp

namespace LinearMcp

/-! ### Composite project-with-issues workflow (src/graphql/client.ts 82-106) -/

/-- A project creation payload (`ProjectInput`). -/
structure ProjectInput where
  name : String
  teamIds : List String
  deriving DecidableEq, Repr

/-- The project record inside a `projectCreate` response. -/
structure ProjectInfo where
  id : String
  name : String
  url : String
  deriving DecidableEq, Repr

/-- The `projectCreate` envelope of a create-project response. -/
structure ProjectCreateResult where
  success : Bool
  project : ProjectInfo
  deriving DecidableEq, Repr

/-- An issue creation payload (`CreateIssueInput`); the composite workflow
spreads it and sets `projectId`. -/
structure CreateIssueInput where
  title : String
  description : String
  teamId : String
  projectId : Option String
  deriving DecidableEq, Repr

/-- An issue record inside an `issueBatchCreate` response. -/
structure CreatedIssue where
  id : String
  identifier : String
  title : String
  url : String
  deriving DecidableEq, Repr

/-- The `issueBatchCreate` envelope of a batch-create response. -/
structure IssueBatchCreateResult where
  success : Bool
  issues : List CreatedIssue
  deriving DecidableEq, Repr

/-- The remote endpoint, as seen by the composite workflow: what the server
answers to a `createProject` call and to a `createBatchIssues` call. -/
structure RemoteEnv where
  projectCreateResponse : ProjectInput → ProjectCreateResult
  issueBatchCreateResponse : List CreateIssueInput → IssueBatchCreateResult

/-- A typed remote call issued by the composite workflow (deletion calls exist
in the client API and are listed so their absence is expressible). -/
inductive RemoteCall where
  | createProject (input : ProjectInput)
  | createBatchIssues (issues : List CreateIssueInput)
  | deleteIssues (ids : List String)
  deriving DecidableEq, Repr

/-- Whether a remote call is a deletion. -/
def RemoteCall.isDeletion : RemoteCall → Bool
  | .deleteIssues _ => true
  | _ => false

/-- Whether a remote call is the batched child-issue creation. -/
def RemoteCall.isBatchCreate : RemoteCall → Bool
  | .createBatchIssues _ => true
  | _ => false

/-- The value returned by a successful `createProjectWithIssues`. -/
structure ProjectWithIssuesResult where
  projectCreate : ProjectCreateResult
  issueBatchCreate : IssueBatchCreateResult
  deriving DecidableEq, Repr

/-- `LinearGraphQLClient.createProjectWithIssues` (src/graphql/client.ts lines
82-106): create the project; on `success: false` throw
`'Failed to create project'`; otherwise map every issue input to
`{ ...issue, projectId: project.id }`, run one batched issue creation, on
`success: false` throw `'Failed to create issues'`, else return both
envelopes.  The first component is the list of remote calls issued, in
order; the second is the thrown error or the returned value. -/
def createProjectWithIssues (env : RemoteEnv) (projectInput : ProjectInput)
    (issues : List CreateIssueInput) :
    List RemoteCall × Except String ProjectWithIssuesResult :=
  let projectResult := env.projectCreateResponse projectInput
  if projectResult.success then
    let issuesWithProject := issues.map fun issue =>
      { issue with projectId := some projectResult.project.id }
    let issuesResult := env.issueBatchCreateResponse issuesWithProject
    if issuesResult.success then
      ([RemoteCall.createProject projectInput,
        RemoteCall.createBatchIssues issuesWithProject],
       .ok ⟨projectResult, issuesResult⟩)
    else
      ([RemoteCall.createProject projectInput,
        RemoteCall.createBatchIssues issuesWithProject],
       .error "Failed to create issues")
  else
    ([RemoteCall.createProject projectInput], .error "Failed to create project")

end LinearMcp

namespace LinearMcp

/-! ### Concrete inputs for the composite-workflow claims -/

/-- A sample project payload. -/
def projectIn : ProjectInput := ⟨"New Project", ["team-1"]⟩

/-- A sample issue payload with no project reference. -/
def issuePlain : CreateIssueInput := ⟨"Issue 1", "Description 1", "team-1", none⟩

/-- A sample issue payload that already carries a project reference. -/
def issueWithProject : CreateIssueInput :=
  ⟨"Issue X", "Description X", "team-1", some "existing-project"⟩

/-- An endpoint on which project creation fails. -/
def envParentFails : RemoteEnv :=
  ⟨fun _ => ⟨false, ⟨"", "", ""⟩⟩, fun _ => ⟨true, []⟩⟩

/-- An endpoint on which project creation succeeds (id `project-1`) and the
batched issue creation fails. -/
def envChildFails : RemoteEnv :=
  ⟨fun _ => ⟨true, ⟨"project-1", "New Project", "https://linear.app/p/1"⟩⟩,
   fun _ => ⟨false, []⟩⟩

/-- An endpoint on which both steps succeed. -/
def envBothSucceed : RemoteEnv :=
  ⟨fun _ => ⟨true, ⟨"project-1", "New Project", "https://linear.app/p/1"⟩⟩,
   fun _ => ⟨true, []⟩⟩

/-- Counterexample to claim C3 as stated: with a succeeding parent step and a
failing child step, `createProjectWithIssues` does not produce a composite
result reporting the parent as succeeded — it throws the bare error
`'Failed to create issues'`, which carries neither the parent's id nor its
output. -/
theorem composite_child_failure_throws :
    (createProjectWithIssues envChildFails projectIn [issuePlain]).2 =
      Except.error "Failed to create issues" := by
  rfl

/-- Claim C3 (amended): when the parent step succeeds and the batched child
step fails, the call throws `'Failed to create issues'` (so the parent's id
and output are not retrievable from the call's result), the calls issued
are exactly the project creation followed by the batched issue creation,
and in particular no deletion of the created parent is performed. -/
theorem composite_child_failure_spec (env : RemoteEnv)
    (projectInput : ProjectInput) (issues : List CreateIssueInput)
    (hparent : (env.projectCreateResponse projectInput).success = true)
    (hchild : (env.issueBatchCreateResponse (issues.map fun issue =>
        { issue with
          projectId := some (env.projectCreateResponse projectInput).project.id })).success
      = false) :
    (createProjectWithIssues env projectInput issues).2 =
      Except.error "Failed to create issues" ∧
    (createProjectWithIssues env projectInput issues).1 =
      [RemoteCall.createProject projectInput,
       RemoteCall.createBatchIssues (issues.map fun issue =>
         { issue with
           projectId := some (env.projectCreateResponse projectInput).project.id })] ∧
    ∀ c ∈ (createProjectWithIssues env projectInput issues).1,
      c.isDeletion = false := by
  have htrace : createProjectWithIssues env projectInput issues =
      ([RemoteCall.createProject projectInput,
        RemoteCall.createBatchIssues (issues.map fun issue =>
          { issue with
            projectId := some (env.projectCreateResponse projectInput).project.id })],
       Except.error "Failed to create issues") := by
    rw [createProjectWithIssues]
    simp [hparent, hchild]
  rw [htrace]
  refine ⟨rfl, rfl, ?_⟩
  intro c hc
  simp only [List.mem_cons, List.not_mem_nil, or_false] at hc
  rcases hc with rfl | rfl <;> rfl

/-- Witness for C3 (amended), on the concrete failing-child endpoint. -/
theorem composite_child_failure_spec_witness :
    (createProjectWithIssues envChildFails projectIn [issuePlain]).2 =
      Except.error "Failed to create issues" ∧
    (createProjectWithIssues envChildFails projectIn [issuePlain]).1 =
      [RemoteCall.createProject projectIn,
       RemoteCall.createBatchIssues ([issuePlain].map fun issue =>
         { issue with
           projectId := some (envChildFails.projectCreateResponse
             projectIn).project.id })] ∧
    ∀ c ∈ (createProjectWithIssues envChildFails projectIn [issuePlain]).1,
      c.isDeletion = false :=
  composite_child_failure_spec envChildFails projectIn [issuePlain] rfl rfl

/-- Counterexample to claim C4 as stated: a child input that already carries
`projectId = "existing-project"` is sent to the batched issue creation with
`projectId = "project-1"` (the created parent's id) — the field-level merge
replaces the already-present value instead of keeping it. -/
theorem composite_merge_replaces_existing_projectId :
    issueWithProject.projectId = some "existing-project" ∧
    (createProjectWithIssues envBothSucceed projectIn [issueWithProject]).1 =
      [RemoteCall.createProject projectIn,
       RemoteCall.createBatchIssues
         [⟨"Issue X", "Description X", "team-1", some "project-1"⟩]] := by
  constructor <;> rfl

/-- Claim C4 (amended): after the parent step succeeds, the parent's id is
attached to every pending child input under the key `projectId`,
overwriting any already-present `projectId` value; all other fields of each
child input are preserved. -/
theorem composite_merge_spec (env : RemoteEnv) (projectInput : ProjectInput)
    (issues : List CreateIssueInput)
    (hparent : (env.projectCreateResponse projectInput).success = true) :
    (createProjectWithIssues env projectInput issues).1 =
      [RemoteCall.createProject projectInput,
       RemoteCall.createBatchIssues (issues.map fun issue =>
         { title := issue.title, description := issue.description,
           teamId := issue.teamId,
           projectId := some (env.projectCreateResponse projectInput).project.id })] := by
  rw [createProjectWithIssues]
  simp only [hparent, if_true]
  split <;> rfl

/-- Witness for C4 (amended), on the concrete endpoint: the merged child input
carries the parent id `project-1`. -/
theorem composite_merge_spec_witness :
    (createProjectWithIssues envBothSucceed projectIn [issueWithProject]).1 =
      [RemoteCall.createProject projectIn,
       RemoteCall.createBatchIssues ([issueWithProject].map fun issue =>
         { title := issue.title, description := issue.description,
           teamId := issue.teamId,
           projectId := some (envBothSucceed.projectCreateResponse
             projectIn).project.id })] :=
  composite_merge_spec envBothSucceed projectIn [issueWithProject] rfl

/-- Claim C5: a bulk update and a bulk delete of N issue ids each issue exactly
one remote call, and that call carries the full id list. -/
theorem bulk_operations_single_call (ids : List String)
    (input : UpdateIssueInput) :
    (LinearGraphQLClient.updateIssuesCalls ids input).length = 1 ∧
    (LinearGraphQLClient.updateIssues ids input).idsVariable = some ids ∧
    (LinearGraphQLClient.deleteIssuesCalls ids).length = 1 ∧
    (LinearGraphQLClient.deleteIssues ids).idsVariable = some ids := by
  refine ⟨rfl, ?_, rfl, ?_⟩ <;>
    simp [LinearGraphQLClient.updateIssues, LinearGraphQLClient.deleteIssues,
      GqlRequest.idsVariable, decodeStrings_map_str]

/-- Claim C8: when the parent-creation step fails, `createProjectWithIssues`
throws `'Failed to create project'` immediately, the only call issued is
the project creation, and no batched child-issue creation is attempted. -/
theorem composite_parent_failure_no_child_call (env : RemoteEnv)
    (projectInput : ProjectInput) (issues : List CreateIssueInput)
    (hparent : (env.projectCreateResponse projectInput).success = false) :
    createProjectWithIssues env projectInput issues =
      ([RemoteCall.createProject projectInput],
       Except.error "Failed to create project") ∧
    ∀ c ∈ (createProjectWithIssues env projectInput issues).1,
      c.isBatchCreate = false := by
  have htrace : createProjectWithIssues env projectInput issues =
      ([RemoteCall.createProject projectInput],
       Except.error "Failed to create project") := by
    rw [createProjectWithIssues]
    simp [hparent]
  rw [htrace]
  refine ⟨rfl, ?_⟩
  intro c hc
  simp only [List.mem_cons, List.not_mem_nil, or_false] at hc
  rcases hc with rfl
  rfl

/-- Witness for C8, on the concrete failing-parent endpoint. -/
theorem composite_parent_failure_no_child_call_witness :
    createProjectWithIssues envParentFails projectIn [issuePlain] =
      ([RemoteCall.createProject projectIn],
       Except.error "Failed to create project") ∧
    ∀ c ∈ (createProjectWithIssues envParentFails projectIn [issuePlain]).1,
      c.isBatchCreate = false :=
  composite_parent_failure_no_child_call envParentFails projectIn [issuePlain] rfl

/-- Claim C10: the single-item operations are exactly one-element batches: for
every id and payload, `updateIssue` issues the same mutation document with
the same variables as `updateIssues` on the one-element list, and likewise
`deleteIssue` and `deleteIssues`. -/
theorem single_item_is_singleton_batch (id : String) (input : UpdateIssueInput) :
    LinearGraphQLClient.updateIssue id input =
      LinearGraphQLClient.updateIssues [id] input ∧
    LinearGraphQLClient.deleteIssue id =
      LinearGraphQLClient.deleteIssues [id] :=
  ⟨rfl, rfl⟩

end LinearMcp

namespace LinearMcp

/-! ### Two concurrent refresh callers (claim C9)

`BaseHandler.verifyAuth` fires `refreshAccessToken()` without awaiting it, so
two handlers can drive two refreshes of one `OAuthLinearAuth` instance
concurrently.  A single call runs as two atomic segments separated by the
`await fetch`: the first segment checks `this.config` and
`this.tokenData?.refreshToken` and sends the token-endpoint request; the
second receives the response and assigns `this.tokenData` /
`this.linearClient`.  There is no lock or in-flight flag anywhere in
src/auth.ts, so the segments of the two callers may interleave arbitrarily.
`RefreshEnv.response i` is the body answered to the i-th request sent. -/

/-- The environment of an interleaved double refresh: the current time and the
(successful) token-endpoint response to each request, by send order. -/
structure RefreshEnv where
  now : Int
  response : Nat → TokenResponse

/-- Progress of one caller through `refreshAccessToken`. -/
inductive CallerPhase where
  | ready
  | awaiting (requestIndex : Nat)
  | finished (failed : Bool)
  deriving DecidableEq, Repr

/-- Joint state: the shared auth instance, both callers, and the number of
token-endpoint requests sent so far. -/
structure TwoCallerState where
  auth : OAuthLinearAuth
  caller1 : CallerPhase
  caller2 : CallerPhase
  requestCount : Nat
  deriving Repr

/-- One atomic segment of `refreshAccessToken` for one caller: from `ready`,
perform the prerequisite check and (if it passes) send the request; from
`awaiting`, apply the response to the shared state.  Returns the new shared
auth state, the caller's new phase, and the new request count. -/
def refreshSegment (env : RefreshEnv) (auth : OAuthLinearAuth)
    (phase : CallerPhase) (count : Nat) :
    OAuthLinearAuth × CallerPhase × Nat :=
  match phase with
  | .ready =>
      match auth.config, auth.tokenData with
      | some _, some td =>
          if td.refreshToken = "" then (auth, .finished true, count)
          else (auth, .awaiting count, count + 1)
      | _, _ => (auth, .finished true, count)
  | .awaiting idx =>
      let data := env.response idx
      ({ auth with
          tokenData := some ⟨data.accessToken, data.refreshToken,
            env.now + data.expiresIn * 1000⟩,
          linearClient := some ⟨data.accessToken⟩ },
       .finished false, count)
  | .finished b => (auth, .finished b, count)

/-- Run the enabled segment of caller 1 (`true`) or caller 2 (`false`). -/
def stepCaller (env : RefreshEnv) (who : Bool) (s : TwoCallerState) :
    TwoCallerState :=
  match who with
  | true =>
      match refreshSegment env s.auth s.caller1 s.requestCount with
      | (a, p, c) => ⟨a, p, s.caller2, c⟩
  | false =>
      match refreshSegment env s.auth s.caller2 s.requestCount with
      | (a, p, c) => ⟨a, s.caller1, p, c⟩

/-- Run an interleaving of the two callers. -/
def runSchedule (env : RefreshEnv) (sched : List Bool) (s : TwoCallerState) :
    TwoCallerState :=
  sched.foldl (fun st who => stepCaller env who st) s

/-- Number of requests a caller in this phase has sent (a caller that failed
its prerequisite check never sent one). -/
def CallerPhase.sent : CallerPhase → Nat
  | .ready => 0
  | .awaiting _ => 1
  | .finished false => 1
  | .finished true => 0

/-- Invariant of the double-refresh system when the initial state is healthy
and every response carries a non-empty refresh token: the request counter
counts the callers past their send point, the shared instance always holds
a config and token data with a non-empty refresh token, and no caller ever
fails its prerequisite check. -/
def RefreshInvariant (s : TwoCallerState) : Prop :=
  s.requestCount = s.caller1.sent + s.caller2.sent ∧
  s.auth.config.isSome = true ∧
  (∃ td, s.auth.tokenData = some td ∧ td.refreshToken ≠ "") ∧
  s.caller1 ≠ .finished true ∧ s.caller2 ≠ .finished true

theorem refreshSegment_ready_send (env : RefreshEnv) (auth : OAuthLinearAuth)
    (count : Nat) (td : TokenData) (hcfg : auth.config.isSome = true)
    (htd : auth.tokenData = some td) (hr : td.refreshToken ≠ "") :
    refreshSegment env auth CallerPhase.ready count =
      (auth, CallerPhase.awaiting count, count + 1) := by
  obtain ⟨cfg, hcfg'⟩ := Option.isSome_iff_exists.mp hcfg
  simp only [refreshSegment, hcfg', htd]
  rw [if_neg hr]

theorem stepCaller_preserves_invariant (env : RefreshEnv)
    (henv : ∀ i, (env.response i).refreshToken ≠ "") (who : Bool)
    (s : TwoCallerState) (h : RefreshInvariant s) :
    RefreshInvariant (stepCaller env who s) := by
  obtain ⟨hcount, hcfg, ⟨td, htd, hr⟩, hf1, hf2⟩ := h
  obtain ⟨auth, c1, c2, count⟩ := s
  simp only at hcount hcfg htd hf1 hf2
  cases who
  · cases c2 with
    | ready =>
        simp only [stepCaller, refreshSegment_ready_send env auth count td hcfg htd hr]
        refine ⟨?_, hcfg, ⟨td, htd, hr⟩, hf1, by simp⟩
        simp only [CallerPhase.sent] at hcount ⊢
        omega
    | awaiting idx =>
        simp only [stepCaller, refreshSegment]
        refine ⟨?_, hcfg, ⟨_, rfl, henv idx⟩, hf1, by simp⟩
        simp only [CallerPhase.sent] at hcount ⊢
        omega
    | finished b =>
        cases b
        · simp only [stepCaller, refreshSegment]
          exact ⟨hcount, hcfg, ⟨td, htd, hr⟩, hf1, by simp⟩
        · exact absurd rfl hf2
  · cases c1 with
    | ready =>
        simp only [stepCaller, refreshSegment_ready_send env auth count td hcfg htd hr]
        refine ⟨?_, hcfg, ⟨td, htd, hr⟩, by simp, hf2⟩
        simp only [CallerPhase.sent] at hcount ⊢
        omega
    | awaiting idx =>
        simp only [stepCaller, refreshSegment]
        refine ⟨?_, hcfg, ⟨_, rfl, henv idx⟩, by simp, hf2⟩
        simp only [CallerPhase.sent] at hcount ⊢
        omega
    | finished b =>
        cases b
        · simp only [stepCaller, refreshSegment]
          exact ⟨hcount, hcfg, ⟨td, htd, hr⟩, by simp, hf2⟩
        · exact absurd rfl hf1

theorem runSchedule_preserves_invariant (env : RefreshEnv)
    (henv : ∀ i, (env.response i).refreshToken ≠ "") (sched : List Bool)
    (s : TwoCallerState) (h : RefreshInvariant s) :
    RefreshInvariant (runSchedule env sched s) := by
  induction sched generalizing s with
  | nil => exact h
  | cons who rest ih =>
      exact ih _ (stepCaller_preserves_invariant env henv who s h)

end LinearMcp

namespace LinearMcp

/-- Environment for the concrete double refresh: time 1000000 ms, every
request answered successfully with the same fresh token pair. -/
def envDouble : RefreshEnv := ⟨1000000, fun _ => ⟨"access-1", "refresh-1", 3600⟩⟩

/-- Counterexample to claim C9 as stated: on an authenticated OAuth instance
with `needsTokenRefresh` true, two concurrent `refreshAccessToken` callers
(here fully interleaved: both send before either completes) issue two
upstream token-endpoint requests, not one — there is no single-flight
guard. -/
theorem two_refreshes_not_single_flight :
    oauthA.needsTokenRefresh envDouble.now = true ∧
    (runSchedule envDouble [true, false, true, false]
        ⟨oauthA, .ready, .ready, 0⟩).caller1 = CallerPhase.finished false ∧
    (runSchedule envDouble [true, false, true, false]
        ⟨oauthA, .ready, .ready, 0⟩).caller2 = CallerPhase.finished false ∧
    (runSchedule envDouble [true, false, true, false]
        ⟨oauthA, .ready, .ready, 0⟩).requestCount = 2 := by
  refine ⟨rfl, rfl, rfl, rfl⟩

/-- Claim C9 (amended): two callers that concurrently invoke
`refreshAccessToken` on one OAuth instance while `needsTokenRefresh` is
true each issue their own upstream token-endpoint request: under every
interleaving in which both callers run to completion, exactly two upstream
requests are sent; the code contains no single-flight guard serializing
them. -/
theorem double_refresh_two_requests (env : RefreshEnv)
    (auth : OAuthLinearAuth) (td : TokenData) (sched : List Bool)
    (htd : auth.tokenData = some td) (hr : td.refreshToken ≠ "")
    (hcfg : auth.config.isSome = true)
    (_hneed : auth.needsTokenRefresh env.now = true)
    (henv : ∀ i, (env.response i).refreshToken ≠ "")
    (hdone1 : ∃ b1, (runSchedule env sched ⟨auth, .ready, .ready, 0⟩).caller1
      = CallerPhase.finished b1)
    (hdone2 : ∃ b2, (runSchedule env sched ⟨auth, .ready, .ready, 0⟩).caller2
      = CallerPhase.finished b2) :
    (runSchedule env sched ⟨auth, .ready, .ready, 0⟩).requestCount = 2 := by
  have h0 : RefreshInvariant ⟨auth, .ready, .ready, 0⟩ :=
    ⟨rfl, hcfg, ⟨td, htd, hr⟩, by simp, by simp⟩
  have hF := runSchedule_preserves_invariant env henv sched _ h0
  obtain ⟨hcount, _, _, hne1, hne2⟩ := hF
  obtain ⟨b1, hb1⟩ := hdone1
  obtain ⟨b2, hb2⟩ := hdone2
  cases b1 with
  | true => exact absurd hb1 hne1
  | false =>
      cases b2 with
      | true => exact absurd hb2 hne2
      | false =>
          rw [hcount, hb1, hb2]
          rfl

/-- Witness for C9 (amended): the fully interleaved concrete schedule. -/
theorem double_refresh_two_requests_witness :
    (runSchedule envDouble [true, false, true, false]
        ⟨oauthA, .ready, .ready, 0⟩).requestCount = 2 :=
  by
  refine double_refresh_two_requests envDouble oauthA tdA
    [true, false, true, false] rfl (by decide) rfl rfl ?_
    ⟨false, rfl⟩ ⟨false, rfl⟩
  intro i
  simp [envDouble]

end LinearMcp
